import Mathlib

/-!
# Verification of the x-fas booking lifecycle core

Shallow embedding of the shipment booking/tracking backend:
the booking route handlers (`src/routes/booking.py`), the carrier stub
layer (`src/services/carrier_service.py`), and the lifecycle engine
(`services/booking_service.py`, modelled from the spec where its source
is not available).  Timestamps are `Nat`, the document store is a pair
of lists, and a Mongo `update_one` is an update of the first matching
document.
-/

/-- Shipment lifecycle states (spec §4.1; `models/shipment.py` `ShipmentStatus`). -/
inductive ShipmentStatus where
  | pending
  | confirmed
  | picked_up
  | in_transit
  | out_for_delivery
  | delivered
  | cancelled
  | returned
deriving DecidableEq, Repr

/-- The forward sequence `pending → confirmed → picked_up → in_transit →
out_for_delivery → delivered`; terminal states have no successor. -/
def ShipmentStatus.forwardNext : ShipmentStatus → Option ShipmentStatus
  | .pending => some .confirmed
  | .confirmed => some .picked_up
  | .picked_up => some .in_transit
  | .in_transit => some .out_for_delivery
  | .out_for_delivery => some .delivered
  | .delivered => none
  | .cancelled => none
  | .returned => none

/-- `delivered`, `cancelled`, `returned` are terminal (spec §4.1). -/
def ShipmentStatus.isTerminal : ShipmentStatus → Bool
  | .delivered => true
  | .cancelled => true
  | .returned => true
  | _ => false

/-- Rendering of a status, used in the cancel-refusal detail message. -/
def ShipmentStatus.toText : ShipmentStatus → String
  | .pending => "pending"
  | .confirmed => "confirmed"
  | .picked_up => "picked_up"
  | .in_transit => "in_transit"
  | .out_for_delivery => "out_for_delivery"
  | .delivered => "delivered"
  | .cancelled => "cancelled"
  | .returned => "returned"

/-- A tracking event appended to the history of a shipment. -/
structure SEvent where
  status : ShipmentStatus
  location : String
  description : String
  timestamp : Nat
deriving DecidableEq, Repr

/-- Carrier info held on a shipment: carrier name, quoted price and the
(at most one) tracking number. -/
structure CarrierInfo where
  carrier : Option String
  price : Option Nat
  tracking_number : Option String
deriving DecidableEq, Repr

/-- The shipment (booking) record, spec §3. -/
structure Shipment where
  id : String
  user_id : String
  status : ShipmentStatus
  carrier_info : CarrierInfo
  events : List SEvent
  created_at : Nat
  updated_at : Nat
  notes : Option String
deriving DecidableEq, Repr

/-- One priced carrier offer inside a quote (`models/quote.py` `CarrierQuote`). -/
structure CarrierQuote where
  carrier_name : String
  price : Nat
deriving DecidableEq, Repr

/-- The quote record, spec §3. -/
structure Quote where
  id : String
  carrier_quotes : List CarrierQuote
  status : String
  selected_carrier : Option String
  used_at : Option Nat
deriving DecidableEq, Repr

/-- Body of `POST /bookings` (`ShipmentCreate`): the fields the embedded
handlers inspect. -/
structure ShipmentCreate where
  quote_id : Option String
  carrier_name : String
  notes : Option String
deriving DecidableEq, Repr

/-- Body of `PUT /bookings/{id}` (`ShipmentUpdate`): patchable fields. -/
structure ShipmentUpdate where
  notes : Option String
  tracking_number : Option String
deriving DecidableEq, Repr

/-- An HTTPException raised by a handler: status code and detail string. -/
structure HErr where
  code : Nat
  detail : String
deriving DecidableEq, Repr

/-- The document store: the `shipments` and `quotes` collections. -/
structure DB where
  shipments : List Shipment
  quotes : List Quote
deriving DecidableEq, Repr

/-- Mongo `update_one`: apply `f` to the first element satisfying `p`,
leave the rest unchanged. -/
def updateFirst (p : α → Bool) (f : α → α) : List α → List α
  | [] => []
  | x :: xs => if p x then f x :: xs else x :: updateFirst p f xs

/-- `find_one({"id": booking_id})` on the shipments collection. -/
def findShipment (db : DB) (bookingId : String) : Option Shipment :=
  db.shipments.find? (fun s => s.id = bookingId)

/-- `find_one({"id": quote_id})` on the quotes collection. -/
def findQuote (db : DB) (quoteId : String) : Option Quote :=
  db.quotes.find? (fun q => q.id = quoteId)

namespace BookingService

/-- Lifecycle failure raised by the engine. -/
inductive LifecycleError where
  | invalidTransition
deriving DecidableEq, Repr

/-- The allowed next-state set (spec §4.1 policy): the immediate next state
in the forward sequence, or a jump to `cancelled`/`returned` from any
non-terminal state; empty for terminal states. -/
def allowedNext (st : ShipmentStatus) : List ShipmentStatus :=
  if st.isTerminal then []
  else
    match st.forwardNext with
    | some nxt => [nxt, .cancelled, .returned]
    | none => [.cancelled, .returned]

/-- Modelled from the spec: `services/booking_service.py` (the
`BookingService.update_shipment_status` method) is not under `src/`.
Spec §4.1: fails with `InvalidTransition` if the current status is
terminal or `new_status` is not in the allowed next-state set; on
success appends one event, sets the status and refreshes `updated_at`. -/
def update_shipment_status (s : Shipment) (newStatus : ShipmentStatus)
    (location description : String) (now : Nat) : Except LifecycleError Shipment :=
  if s.status.isTerminal = true ∨ newStatus ∉ allowedNext s.status then
    .error .invalidTransition
  else
    .ok { s with
      status := newStatus,
      events := s.events ++ [⟨newStatus, location, description, now⟩],
      updated_at := now }

/-- Modelled from the spec: `BookingService.simulate_shipment_progress` is
not under `src/`.  Spec §4.1: advances the status exactly one step along
the forward sequence, appending a synthetic event; idempotent no-op if
already terminal. -/
def simulate_shipment_progress (s : Shipment) (now : Nat) : Shipment :=
  match s.status.forwardNext with
  | none => s
  | some nxt =>
    { s with
      status := nxt,
      events := s.events ++ [⟨nxt, "XFas Logistics Hub", "Simulated progress update", now⟩],
      updated_at := now }

/-- Modelled from the spec: `BookingService.create_booking` is not under
`src/`.  Spec §4.1: a new shipment in state `pending`; if a carrier
quote was selected, its carrier and rate become the carrier_info
baseline. -/
def create_booking (req : ShipmentCreate) (userId newId : String) (now : Nat)
    (cq : Option CarrierQuote) : Shipment :=
  { id := newId,
    user_id := userId,
    status := .pending,
    carrier_info :=
      match cq with
      | some c => { carrier := some c.carrier_name, price := some c.price, tracking_number := none }
      | none => { carrier := none, price := none, tracking_number := none },
    events := [],
    created_at := now,
    updated_at := now,
    notes := req.notes }

/-- Modelled from the spec: `BookingService.process_shipment_response` is
not under `src/`; the response is a projection of the shipment, modelled
as the shipment itself. -/
def process_shipment_response (s : Shipment) : Shipment := s

end BookingService

namespace CarrierService

/-- One entry of the event history of a tracking payload. -/
structure TrackEvent where
  timestamp : String
  status : String
  location : String
deriving DecidableEq, Repr

/-- A carrier tracking payload (the dict returned by `track_shipment`);
an absent key is `none` / an empty list. -/
structure TrackPayload where
  tracking_number : Option String
  status : Option String
  location : Option String
  estimated_delivery : Option String
  events : List TrackEvent
deriving DecidableEq, Repr

/-- The empty dict `{}` returned by `_track_dhl`, `_track_fedex` and
`_track_ups` (`src/services/carrier_service.py` lines 93-106). -/
def TrackPayload.emptyDict : TrackPayload :=
  { tracking_number := none, status := none, location := none,
    estimated_delivery := none, events := [] }

/-- The fixed mock tracking payload of the final `else` branch of
`track_shipment` (`src/services/carrier_service.py` lines 78-91). -/
def mockTrack (trackingNumber : String) : TrackPayload :=
  { tracking_number := some trackingNumber,
    status := some "In Transit",
    location := some "Mumbai, India",
    estimated_delivery := some "2025-01-02",
    events := [⟨"2025-01-01T10:00:00Z", "Picked up", "Mumbai Hub"⟩] }

/-- The Python `str.lower()` method applied on the carrier name (ASCII case folding,
character by character). -/
def pyLower (s : String) : String := ⟨s.data.map Char.toLower⟩

/-- `CarrierService.track_shipment` (`src/services/carrier_service.py`
lines 68-91): dispatch on the lower-cased carrier name; recognized
carriers go to stub trackers returning `{}`, everything else gets the
mock payload. -/
def track_shipment (carrier : String) (trackingNumber : String) : TrackPayload :=
  if pyLower carrier = "dhl" then TrackPayload.emptyDict
  else if pyLower carrier = "fedex" then TrackPayload.emptyDict
  else if pyLower carrier = "ups" then TrackPayload.emptyDict
  else mockTrack trackingNumber

end CarrierService

namespace Routes

open BookingService

/-- The for-loop of `create_booking` (`src/routes/booking.py` lines 38-41):
first entry of `carrier_quotes` whose `carrier_name` equals the carrier name
of the request, with break on the first hit. -/
def findCarrierQuote : List CarrierQuote → String → Option CarrierQuote
  | [], _ => none
  | cq :: rest, name => if cq.carrier_name = name then some cq else findCarrierQuote rest name

/-- The quote/carrier lookup block of `create_booking` (`src/routes/booking.py`
lines 33-41): `None` when no quote id is given, the quote is missing, or no
carrier entry matches. -/
def quoteLookup (db : DB) (req : ShipmentCreate) : Option CarrierQuote :=
  match req.quote_id with
  | none => none
  | some qid =>
    match findQuote db qid with
    | none => none
    | some q => findCarrierQuote q.carrier_quotes req.carrier_name

/-- The `$set` document of the quote-marking `update_one`
(`src/routes/booking.py` lines 55-64). -/
def markUsed (carrierName : String) (usedAt : Nat) (q : Quote) : Quote :=
  { q with status := "used", selected_carrier := some carrierName, used_at := some usedAt }

/-- `POST /bookings` — `create_booking` (`src/routes/booking.py` lines 21-75):
look up the selected carrier quote, create the shipment, insert it, then
mark the quote used (unconditionally whenever a quote id was supplied). -/
def createBooking (req : ShipmentCreate) (userId newId : String) (now : Nat)
    (db : DB) : Except HErr Shipment × DB :=
  let carrier_quote := quoteLookup db req
  let shipment := BookingService.create_booking req userId newId now carrier_quote
  let db1 : DB := { db with shipments := db.shipments ++ [shipment] }
  let db2 : DB :=
    match req.quote_id with
    | none => db1
    | some qid =>
      { db1 with
        quotes := updateFirst (fun q => q.id = qid)
          (markUsed req.carrier_name shipment.created_at) db1.quotes }
  (.ok (process_shipment_response shipment), db2)

/-- `GET /bookings/{id}` — `get_booking` (`src/routes/booking.py` lines
108-138): 404 when absent, 403 when not owned, otherwise the response. -/
def getBooking (bookingId userId : String) (db : DB) : Except HErr Shipment :=
  match findShipment db bookingId with
  | none => .error ⟨404, "Booking not found"⟩
  | some s =>
    if s.user_id ≠ userId then .error ⟨403, "Access denied"⟩
    else .ok (process_shipment_response s)

/-- The `$set` document built by `update_booking` (`src/routes/booking.py`
lines 191-204): patch `notes` and `carrier_info.tracking_number` when
present, and write `updated_at` back as the (old) `updated_at`
of the fetched shipment. -/
def applyUpdate (req : ShipmentUpdate) (fetched : Shipment) (s : Shipment) : Shipment :=
  let s1 := match req.notes with
    | some n => { s with notes := some n }
    | none => s
  let s2 := match req.tracking_number with
    | some t => { s1 with carrier_info := { s1.carrier_info with tracking_number := some t } }
    | none => s1
  { s2 with updated_at := fetched.updated_at }

/-- `PUT /bookings/{id}` — `update_booking` (`src/routes/booking.py` lines
164-214): 404 / 403 guards, then an `update_one` with the patch document
when any field is supplied, re-fetch and return. -/
def updateBooking (bookingId : String) (req : ShipmentUpdate) (userId : String)
    (db : DB) : Except HErr Shipment × DB :=
  match findShipment db bookingId with
  | none => (.error ⟨404, "Booking not found"⟩, db)
  | some shipment =>
    if shipment.user_id ≠ userId then (.error ⟨403, "Access denied"⟩, db)
    else if req.notes.isSome || req.tracking_number.isSome then
      let db' : DB := { db with
        shipments := updateFirst (fun s => s.id = bookingId) (applyUpdate req shipment) db.shipments }
      match findShipment db' bookingId with
      | some s' => (.ok (process_shipment_response s'), db')
      | none => (.error ⟨500, "Internal Server Error"⟩, db')
    else (.ok (process_shipment_response shipment), db)

/-- `DELETE /bookings/{id}` — `cancel_booking` (`src/routes/booking.py` lines
216-264): 404 / 403 guards, 400 when the status is terminal, otherwise
transition to `cancelled` via the lifecycle engine and persist. -/
def cancelBooking (bookingId userId : String) (now : Nat) (db : DB) :
    Except HErr String × DB :=
  match findShipment db bookingId with
  | none => (.error ⟨404, "Booking not found"⟩, db)
  | some shipment =>
    if shipment.user_id ≠ userId then (.error ⟨403, "Access denied"⟩, db)
    else if shipment.status ∈ [ShipmentStatus.delivered, .cancelled, .returned] then
      (.error ⟨400, "Cannot cancel shipment with status: " ++ shipment.status.toText⟩, db)
    else
      match update_shipment_status shipment .cancelled
          "XFas Logistics Hub" "Shipment cancelled by customer" now with
      | .error _ => (.error ⟨500, "Internal Server Error"⟩, db)
      | .ok updated =>
        (.ok "Booking cancelled successfully",
          { db with
            shipments := updateFirst (fun s => s.id = bookingId) (fun _ => updated) db.shipments })

/-- `POST /bookings/{id}/simulate-progress` — `simulate_booking_progress`
(`src/routes/booking.py` lines 266-304): 404 / 403 guards, then advance
one step via the lifecycle engine and persist. -/
def simulateBookingProgress (bookingId userId : String) (now : Nat) (db : DB) :
    Except HErr Shipment × DB :=
  match findShipment db bookingId with
  | none => (.error ⟨404, "Booking not found"⟩, db)
  | some shipment =>
    if shipment.user_id ≠ userId then (.error ⟨403, "Access denied"⟩, db)
    else
      let updated := simulate_shipment_progress shipment now
      (.ok (process_shipment_response updated),
        { db with
          shipments := updateFirst (fun s => s.id = bookingId) (fun _ => updated) db.shipments })

end Routes

/-! ## Concrete fixtures -/

/-- A pending shipment owned by user `U1`. -/
def shipPending : Shipment :=
  { id := "S1", user_id := "U1", status := .pending,
    carrier_info := ⟨none, none, none⟩, events := [],
    created_at := 1, updated_at := 5, notes := none }

/-- A delivered (terminal) shipment owned by user `U1`. -/
def shipDelivered : Shipment :=
  { id := "S2", user_id := "U1", status := .delivered,
    carrier_info := ⟨none, none, none⟩, events := [],
    created_at := 1, updated_at := 5, notes := none }

/-- A shipment that already carries tracking number `AWB-A`. -/
def shipTracked : Shipment :=
  { id := "S3", user_id := "U1", status := .pending,
    carrier_info := ⟨some "DHL", some 500, some "AWB-A"⟩, events := [],
    created_at := 1, updated_at := 5, notes := none }

/-- An active quote `Q1` with a single DHL offer at 500. -/
def quoteDHL : Quote :=
  { id := "Q1", carrier_quotes := [⟨"DHL", 500⟩], status := "active",
    selected_carrier := none, used_at := none }

/-- An active quote `Q2` with a single FedEx offer at 300 (no DHL entry). -/
def quoteFedEx : Quote :=
  { id := "Q2", carrier_quotes := [⟨"FedEx", 300⟩], status := "active",
    selected_carrier := none, used_at := none }

/-- A database holding only quote `Q1`. -/
def dbQ1 : DB := ⟨[], [quoteDHL]⟩

/-- A database holding only quote `Q2`. -/
def dbQ2 : DB := ⟨[], [quoteFedEx]⟩

/-- A database holding only the pending shipment. -/
def dbPending : DB := ⟨[shipPending], []⟩

/-- A database holding only the delivered shipment. -/
def dbDelivered : DB := ⟨[shipDelivered], []⟩

/-- A database holding only the tracked shipment. -/
def dbTracked : DB := ⟨[shipTracked], []⟩

/-- A booking request consuming quote `Q1` with carrier `DHL`. -/
def reqDHL : ShipmentCreate := ⟨some "Q1", "DHL", none⟩

/-- A booking request consuming quote `Q1` with carrier `FedEx`. -/
def reqFedExQ1 : ShipmentCreate := ⟨some "Q1", "FedEx", none⟩

/-- A booking request consuming quote `Q2` with carrier `DHL`
(no matching entry in `Q2`). -/
def reqNoMatch : ShipmentCreate := ⟨some "Q2", "DHL", none⟩

/-! ## Helper lemmas on the document-store primitives -/

/-- If `find?` hits `x` and `f x` still satisfies the predicate, then after
`updateFirst` the same `find?` hits `f x`. -/
theorem find?_updateFirst {α} (p : α → Bool) (f : α → α) (l : List α) (x : α)
    (h : l.find? p = some x) (hf : p (f x) = true) :
    (updateFirst p f l).find? p = some (f x) := by
  induction l with
  | nil => simp [List.find?] at h
  | cons a as ih =>
    by_cases hp : p a = true
    · rw [List.find?_cons_of_pos _ hp] at h
      injection h with h
      subst h
      simp [updateFirst, hp, List.find?_cons_of_pos _ hf]
    · rw [List.find?_cons_of_neg _ (by simpa using hp)] at h
      simp only [updateFirst, hp, if_false, Bool.false_eq_true]
      rw [List.find?_cons_of_neg _ (by simpa using hp)]
      exact ih h

/-- When nothing matches, `updateFirst` is the identity. -/
theorem updateFirst_eq_of_find?_none {α} (p : α → Bool) (f : α → α) (l : List α)
    (h : l.find? p = none) : updateFirst p f l = l := by
  induction l with
  | nil => rfl
  | cons a as ih =>
    by_cases hp : p a = true
    · rw [List.find?_cons_of_pos _ hp] at h; cases h
    · rw [List.find?_cons_of_neg _ (by simpa using hp)] at h
      simp [updateFirst, hp, ih h]

/-- Terminal states have no forward successor. -/
theorem forwardNext_eq_none_of_isTerminal (st : ShipmentStatus)
    (h : st.isTerminal = true) : st.forwardNext = none := by
  cases st <;> simp_all [ShipmentStatus.isTerminal, ShipmentStatus.forwardNext]

/-! ## Claims -/

/-- C1: for every shipment and requested new status, `update_status` fails
with `InvalidTransition` when the current status is terminal or the new
status is not in the allowed next-state set; the error result carries no
mutated record, so the shipment is left unmodified. -/
theorem C1_update_status_invalid_transition (s : Shipment) (newStatus : ShipmentStatus)
    (loc desc : String) (now : Nat)
    (h : s.status.isTerminal = true ∨ newStatus ∉ BookingService.allowedNext s.status) :
    BookingService.update_shipment_status s newStatus loc desc now =
      Except.error BookingService.LifecycleError.invalidTransition := by
  unfold BookingService.update_shipment_status
  rw [if_pos h]

/-- C1 witness: updating a delivered shipment to `confirmed` is rejected. -/
theorem C1_update_status_invalid_transition_witness :
    BookingService.update_shipment_status shipDelivered .confirmed "Hub" "advance" 9 =
      Except.error BookingService.LifecycleError.invalidTransition :=
  C1_update_status_invalid_transition shipDelivered .confirmed "Hub" "advance" 9
    (Or.inl (by decide))

/-- C3: for every shipment whose status is terminal, `cancel_booking`
(called by the owner) fails with HTTP 400 and the database is returned
unchanged: no event is appended and no write occurs. -/
theorem C3_cancel_terminal_rejected (bid uid : String) (now : Nat) (db : DB)
    (s : Shipment) (hfind : findShipment db bid = some s) (hown : s.user_id = uid)
    (hterm : s.status ∈ [ShipmentStatus.delivered, .cancelled, .returned]) :
    Routes.cancelBooking bid uid now db =
      (Except.error ⟨400, "Cannot cancel shipment with status: " ++ s.status.toText⟩, db) := by
  unfold Routes.cancelBooking
  rw [hfind]
  simp only [hown, ne_eq, not_true_eq_false, if_false, if_pos hterm]

/-- C3 witness: cancelling the delivered shipment yields 400 and leaves the
database as it was. -/
theorem C3_cancel_terminal_rejected_witness :
    Routes.cancelBooking "S2" "U1" 9 dbDelivered =
      (Except.error ⟨400, "Cannot cancel shipment with status: " ++
        shipDelivered.status.toText⟩, dbDelivered) :=
  C3_cancel_terminal_rejected "S2" "U1" 9 dbDelivered shipDelivered (by decide) rfl (by decide)

/-- C4: for every shipment and caller whose user id differs from the
`user_id` of the shipment, `get_booking`, `update_booking`, `cancel_booking`
and `simulate_booking_progress` all answer with the constant
403 "Access denied" error — independent of the contents of the shipment —
and leave the database unchanged. -/
theorem C4_nonowner_forbidden (bid uid : String) (db : DB) (now : Nat)
    (req : ShipmentUpdate) (s : Shipment)
    (hfind : findShipment db bid = some s) (hown : s.user_id ≠ uid) :
    Routes.getBooking bid uid db = Except.error ⟨403, "Access denied"⟩ ∧
    Routes.updateBooking bid req uid db = (Except.error ⟨403, "Access denied"⟩, db) ∧
    Routes.cancelBooking bid uid now db = (Except.error ⟨403, "Access denied"⟩, db) ∧
    Routes.simulateBookingProgress bid uid now db =
      (Except.error ⟨403, "Access denied"⟩, db) := by
  refine ⟨?_, ?_, ?_, ?_⟩
  · simp only [Routes.getBooking, hfind]
    rw [if_pos hown]
  · simp only [Routes.updateBooking, hfind]
    rw [if_pos hown]
  · simp only [Routes.cancelBooking, hfind]
    rw [if_pos hown]
  · simp only [Routes.simulateBookingProgress, hfind]
    rw [if_pos hown]

/-- C4 witness: user `U2` is refused on all four endpoints for shipment `S1`. -/
theorem C4_nonowner_forbidden_witness :
    Routes.getBooking "S1" "U2" dbPending = Except.error ⟨403, "Access denied"⟩ ∧
    Routes.updateBooking "S1" ⟨some "n", none⟩ "U2" dbPending =
      (Except.error ⟨403, "Access denied"⟩, dbPending) ∧
    Routes.cancelBooking "S1" "U2" 9 dbPending =
      (Except.error ⟨403, "Access denied"⟩, dbPending) ∧
    Routes.simulateBookingProgress "S1" "U2" 9 dbPending =
      (Except.error ⟨403, "Access denied"⟩, dbPending) :=
  C4_nonowner_forbidden "S1" "U2" dbPending 9 ⟨some "n", none⟩ shipPending
    (by decide) (by decide)

/-- C5: `simulate_progress` on a shipment in a terminal state is an
idempotent no-op (the record, hence status and event count, is
unchanged); on a non-terminal shipment it advances the status exactly one
step along the forward sequence and appends exactly one synthetic event. -/
theorem C5_simulate_progress_step (s : Shipment) (now : Nat) :
    (s.status.isTerminal = true → BookingService.simulate_shipment_progress s now = s) ∧
    (∀ nxt, s.status.forwardNext = some nxt →
      (BookingService.simulate_shipment_progress s now).status = nxt ∧
      (BookingService.simulate_shipment_progress s now).events.length =
        s.events.length + 1) := by
  constructor
  · intro hterm
    unfold BookingService.simulate_shipment_progress
    rw [forwardNext_eq_none_of_isTerminal s.status hterm]
  · intro nxt hn
    unfold BookingService.simulate_shipment_progress
    rw [hn]
    simp

/-- C5 witness: a delivered shipment is untouched; a pending shipment moves
to `confirmed` gaining one event. -/
theorem C5_simulate_progress_step_witness :
    BookingService.simulate_shipment_progress shipDelivered 9 = shipDelivered ∧
    (BookingService.simulate_shipment_progress shipPending 9).status = .confirmed ∧
    (BookingService.simulate_shipment_progress shipPending 9).events.length =
      shipPending.events.length + 1 :=
  ⟨(C5_simulate_progress_step shipDelivered 9).1 (by decide),
   ((C5_simulate_progress_step shipPending 9).2 .confirmed (by decide)).1,
   ((C5_simulate_progress_step shipPending 9).2 .confirmed (by decide)).2⟩

/-- Decidable equality of handler results. -/
instance {ε α : Type} [DecidableEq ε] [DecidableEq α] : DecidableEq (Except ε α) := fun x y =>
  match x, y with
  | .ok a, .ok b =>
    if h : a = b then isTrue (by rw [h])
    else isFalse (fun hc => by injection hc with h2; exact h h2)
  | .error a, .error b =>
    if h : a = b then isTrue (by rw [h])
    else isFalse (fun hc => by injection hc with h2; exact h h2)
  | .ok a, .error b => isFalse (fun hc => by cases hc)
  | .error a, .ok b => isFalse (fun hc => by cases hc)

/-- `applyUpdate` never changes the shipment id. -/
theorem applyUpdate_id (req : ShipmentUpdate) (fetched s : Shipment) :
    (Routes.applyUpdate req fetched s).id = s.id := by
  obtain ⟨n, t⟩ := req
  cases n <;> cases t <;> rfl

/-- When the request carries a tracking number, `applyUpdate` stores it,
whatever was there before. -/
theorem applyUpdate_tracking (req : ShipmentUpdate) (fetched s : Shipment) (t : String)
    (ht : req.tracking_number = some t) :
    (Routes.applyUpdate req fetched s).carrier_info.tracking_number = some t := by
  obtain ⟨n, tn⟩ := req
  cases ht
  cases n <;> rfl

/-- C6: the claim says every mutation leaves `updated_at` strictly later.
The code of `update_booking` writes `updated_at` back as the old value held by the
fetched shipment (`src/routes/booking.py` line 200), so a successful
notes patch leaves the stored `updated_at` exactly where it was (5 here,
not later). -/
theorem C6_updated_at_stale :
    (Routes.updateBooking "S1" ⟨some "new note", none⟩ "U1" dbPending).1 =
      Except.ok { shipPending with notes := some "new note" } ∧
    (findShipment (Routes.updateBooking "S1" ⟨some "new note", none⟩ "U1" dbPending).2
        "S1").map Shipment.updated_at = some 5 ∧
    shipPending.updated_at = 5 := by
  decide

/-- C7 counterexample: a shipment already tracked as `AWB-A` gets its
tracking number replaced by `AWB-B` through the PUT patch, so
tracking_number is not set at most once. -/
theorem C7_counterexample :
    shipTracked.carrier_info.tracking_number = some "AWB-A" ∧
    (findShipment (Routes.updateBooking "S3" ⟨none, some "AWB-B"⟩ "U1" dbTracked).2
        "S3").map (fun x => x.carrier_info.tracking_number) = some (some "AWB-B") ∧
    (Routes.updateBooking "S3" ⟨none, some "AWB-B"⟩ "U1" dbTracked).1 =
      Except.ok { shipTracked with
        carrier_info := { shipTracked.carrier_info with tracking_number := some "AWB-B" } } := by
  decide

/-- C7 amended: `update_booking` overwrites `carrier_info.tracking_number`
unconditionally whenever the request supplies one — regardless of any
previously stored value. -/
theorem C7_amended_tracking_overwritten (bid uid : String) (db : DB)
    (req : ShipmentUpdate) (s : Shipment) (t : String)
    (hfind : findShipment db bid = some s) (hown : s.user_id = uid)
    (ht : req.tracking_number = some t) :
    (findShipment (Routes.updateBooking bid req uid db).2 bid).map
      (fun x => x.carrier_info.tracking_number) = some (some t) := by
  have hfindL : db.shipments.find? (fun x => decide (x.id = bid)) = some s := hfind
  have hsid : s.id = bid := by simpa using List.find?_some hfindL
  have hp : decide ((Routes.applyUpdate req s s).id = bid) = true := by
    rw [applyUpdate_id, hsid]
    simp
  have h' : (updateFirst (fun x : Shipment => decide (x.id = bid))
      (Routes.applyUpdate req s) db.shipments).find? (fun x => decide (x.id = bid)) =
      some (Routes.applyUpdate req s s) :=
    find?_updateFirst _ _ _ s hfindL hp
  have hdb : (Routes.updateBooking bid req uid db).2 =
      ⟨updateFirst (fun x : Shipment => decide (x.id = bid))
        (Routes.applyUpdate req s) db.shipments, db.quotes⟩ := by
    simp only [Routes.updateBooking, hfind]
    rw [if_neg (by simp [hown]), if_pos (by simp [ht])]
    split <;> rfl
  rw [hdb]
  have h'' : findShipment
      ⟨updateFirst (fun x : Shipment => decide (x.id = bid))
        (Routes.applyUpdate req s) db.shipments, db.quotes⟩ bid =
      some (Routes.applyUpdate req s s) := h'
  rw [h'']
  simp [applyUpdate_tracking req s s t ht]

/-- C7 amended witness: the concrete overwrite of `AWB-A` by `AWB-B`. -/
theorem C7_amended_tracking_overwritten_witness :
    (findShipment (Routes.updateBooking "S3" ⟨none, some "AWB-B"⟩ "U1" dbTracked).2
        "S3").map (fun x => x.carrier_info.tracking_number) = some (some "AWB-B") :=
  C7_amended_tracking_overwritten "S3" "U1" dbTracked ⟨none, some "AWB-B"⟩ shipTracked
    "AWB-B" (by decide) rfl rfl

/-- `update_booking` never writes the quotes collection. -/
theorem updateBooking_preserves_quotes (bid : String) (req : ShipmentUpdate)
    (uid : String) (db : DB) :
    (Routes.updateBooking bid req uid db).2.quotes = db.quotes := by
  unfold Routes.updateBooking
  cases findShipment db bid with
  | none => rfl
  | some s =>
    dsimp only
    split
    · rfl
    · split
      · split <;> rfl
      · rfl

/-- `cancel_booking` never writes the quotes collection. -/
theorem cancelBooking_preserves_quotes (bid uid : String) (now : Nat) (db : DB) :
    (Routes.cancelBooking bid uid now db).2.quotes = db.quotes := by
  unfold Routes.cancelBooking
  cases findShipment db bid with
  | none => rfl
  | some s =>
    dsimp only
    split
    · rfl
    · split
      · rfl
      · split <;> rfl

/-- `simulate_booking_progress` never writes the quotes collection. -/
theorem simulateBookingProgress_preserves_quotes (bid uid : String) (now : Nat)
    (db : DB) :
    (Routes.simulateBookingProgress bid uid now db).2.quotes = db.quotes := by
  unfold Routes.simulateBookingProgress
  cases findShipment db bid with
  | none => rfl
  | some s =>
    dsimp only
    split <;> rfl

/-- C2 counterexample: booking twice against quote `Q1` succeeds both times
and re-marks the quote — `used_at` moves from 10 to 20 and
`selected_carrier` from `DHL` to `FedEx`, so `used` is not set at most
once in the claimed sense. -/
theorem C2_counterexample :
    (findQuote (Routes.createBooking reqDHL "U1" "SA" 10 dbQ1).2 "Q1").map
        (fun q => (q.status, q.selected_carrier, q.used_at)) =
      some ("used", some "DHL", some 10) ∧
    (findQuote (Routes.createBooking reqFedExQ1 "U1" "SB" 20
          (Routes.createBooking reqDHL "U1" "SA" 10 dbQ1).2).2 "Q1").map
        (fun q => (q.status, q.selected_carrier, q.used_at)) =
      some ("used", some "FedEx", some 20) ∧
    (Routes.createBooking reqFedExQ1 "U1" "SB" 20
        (Routes.createBooking reqDHL "U1" "SA" 10 dbQ1).2).1 =
      Except.ok (BookingService.create_booking reqFedExQ1 "U1" "SB" 20 none) := by
  decide

/-- C2 amended: whenever a booking references an existing quote the marking
is (re-)applied unconditionally — status `used`, `selected_carrier` the
carrier of the request and `used_at` the creation time of the new shipment — and
the call does not fail; within the modelled operations only
`create_booking` ever writes the quotes collection. -/
theorem C2_amended_quote_remarked (req : ShipmentCreate) (uid newId : String)
    (now : Nat) (db : DB) (qid : String) (q : Quote)
    (hq : req.quote_id = some qid) (hfound : findQuote db qid = some q) :
    findQuote (Routes.createBooking req uid newId now db).2 qid =
      some (Routes.markUsed req.carrier_name now q) ∧
    (Routes.createBooking req uid newId now db).1 =
      Except.ok (BookingService.create_booking req uid newId now
        (Routes.quoteLookup db req)) ∧
    (∀ b r u d, (Routes.updateBooking b r u d).2.quotes = d.quotes) ∧
    (∀ b u n d, (Routes.cancelBooking b u n d).2.quotes = d.quotes) ∧
    (∀ b u n d, (Routes.simulateBookingProgress b u n d).2.quotes = d.quotes) := by
  refine ⟨?_, ?_, updateBooking_preserves_quotes, cancelBooking_preserves_quotes,
    simulateBookingProgress_preserves_quotes⟩
  · have hfoundL : db.quotes.find? (fun x => decide (x.id = qid)) = some q := hfound
    have hqid : q.id = qid := by simpa using List.find?_some hfoundL
    have hp : decide ((Routes.markUsed req.carrier_name now q).id = qid) = true := by
      have : (Routes.markUsed req.carrier_name now q).id = q.id := rfl
      rw [this, hqid]
      simp
    have h' : (updateFirst (fun x : Quote => decide (x.id = qid))
        (Routes.markUsed req.carrier_name now) db.quotes).find?
          (fun x => decide (x.id = qid)) =
        some (Routes.markUsed req.carrier_name now q) :=
      find?_updateFirst _ _ _ q hfoundL hp
    have hquotes : (Routes.createBooking req uid newId now db).2.quotes =
        updateFirst (fun x : Quote => decide (x.id = qid))
          (Routes.markUsed req.carrier_name now) db.quotes := by
      simp only [Routes.createBooking, hq]
      rfl
    show (Routes.createBooking req uid newId now db).2.quotes.find?
        (fun x => decide (x.id = qid)) = _
    rw [hquotes]
    exact h'
  · simp only [Routes.createBooking, hq]
    rfl

/-- C2 amended witness: the first booking against `Q1` marks it used with
`used_at = 10` and carrier `DHL`. -/
theorem C2_amended_quote_remarked_witness :
    findQuote (Routes.createBooking reqDHL "U1" "SA" 10 dbQ1).2 "Q1" =
      some (Routes.markUsed "DHL" 10 quoteDHL) :=
  (C2_amended_quote_remarked reqDHL "U1" "SA" 10 dbQ1 "Q1" quoteDHL rfl (by decide)).1

/-- The carrier scan returns `none` when no entry matches. -/
theorem findCarrierQuote_eq_none (cqs : List CarrierQuote) (name : String)
    (h : ∀ c ∈ cqs, c.carrier_name ≠ name) :
    Routes.findCarrierQuote cqs name = none := by
  induction cqs with
  | nil => rfl
  | cons c cs ih =>
    unfold Routes.findCarrierQuote
    rw [if_neg (h c (by simp))]
    exact ih (fun x hx => h x (by simp [hx]))

/-- The carrier scan returns the first matching entry. -/
theorem findCarrierQuote_first_match (pre : List CarrierQuote) (cq : CarrierQuote)
    (post : List CarrierQuote) (name : String)
    (hpre : ∀ c ∈ pre, c.carrier_name ≠ name) (hcq : cq.carrier_name = name) :
    Routes.findCarrierQuote (pre ++ cq :: post) name = some cq := by
  induction pre with
  | nil =>
    simp only [List.nil_append]
    unfold Routes.findCarrierQuote
    rw [if_pos hcq]
  | cons c cs ih =>
    simp only [List.cons_append]
    unfold Routes.findCarrierQuote
    rw [if_neg (hpre c (by simp))]
    exact ih (fun x hx => hpre x (by simp [hx]))

/-- C8 counterexample: quote `Q2` has no DHL entry, yet booking it with
carrier `DHL` does not yield `NotFound` — the lookup returns `none` and
the booking is created successfully with no quote baseline. -/
theorem C8_counterexample :
    Routes.quoteLookup dbQ2 reqNoMatch = none ∧
    (Routes.createBooking reqNoMatch "U1" "S8" 30 dbQ2).1 =
      Except.ok (BookingService.create_booking reqNoMatch "U1" "S8" 30 none) := by
  decide

/-- C8 amended: the lookup scans `carrier_quotes` in order and returns the
first entry whose carrier name matches; when no entry matches it returns
`none` and `create_booking` still succeeds, with no quote-derived
baseline, rather than yielding `NotFound`. -/
theorem C8_amended_first_match_or_proceed (db : DB) (req : ShipmentCreate)
    (uid newId : String) (now : Nat) (qid : String) (q : Quote)
    (hq : req.quote_id = some qid) (hfound : findQuote db qid = some q) :
    (∀ pre cq post, q.carrier_quotes = pre ++ cq :: post →
      cq.carrier_name = req.carrier_name →
      (∀ c ∈ pre, c.carrier_name ≠ req.carrier_name) →
      Routes.quoteLookup db req = some cq) ∧
    ((∀ c ∈ q.carrier_quotes, c.carrier_name ≠ req.carrier_name) →
      Routes.quoteLookup db req = none ∧
      (Routes.createBooking req uid newId now db).1 =
        Except.ok (BookingService.create_booking req uid newId now none)) := by
  have hlook : Routes.quoteLookup db req =
      Routes.findCarrierQuote q.carrier_quotes req.carrier_name := by
    simp only [Routes.quoteLookup, hq, hfound]
  constructor
  · intro pre cq post hsplit hcq hpre
    rw [hlook, hsplit]
    exact findCarrierQuote_first_match pre cq post req.carrier_name hpre hcq
  · intro hnone
    have hlz : Routes.quoteLookup db req = none := by
      rw [hlook]
      exact findCarrierQuote_eq_none q.carrier_quotes req.carrier_name hnone
    refine ⟨hlz, ?_⟩
    simp only [Routes.createBooking, hlz]
    rfl

/-- C8 amended witness: the concrete no-match booking against `Q2`. -/
theorem C8_amended_first_match_or_proceed_witness :
    Routes.quoteLookup dbQ2 reqNoMatch = none ∧
    (Routes.createBooking reqNoMatch "U1" "S9" 30 dbQ2).1 =
      Except.ok (BookingService.create_booking reqNoMatch "U1" "S9" 30 none) :=
  (C8_amended_first_match_or_proceed dbQ2 reqNoMatch "U1" "S9" 30 "Q2" quoteFedEx
    rfl (by decide)).2 (by decide)

/-- C9 counterexample: `DHL` is a recognized carrier whose integration is
disabled, yet `track_shipment` returns the empty dict for it — not the
fixed mock payload with the tracking number echoed. -/
theorem C9_counterexample :
    CarrierService.track_shipment "DHL" "TRK7" = CarrierService.TrackPayload.emptyDict ∧
    (CarrierService.track_shipment "DHL" "TRK7").tracking_number = none ∧
    CarrierService.track_shipment "DHL" "TRK7" ≠ CarrierService.mockTrack "TRK7" := by
  decide

/-- C9 amended: `track_shipment` is total (it never fails); a carrier whose
lower-cased name is not `dhl`/`fedex`/`ups` gets the fixed mock payload
(tracking number echoed, status `In Transit`, one event), while the
recognized carriers get the empty dict regardless of the enabled flag. -/
theorem C9_amended_track_fallback (carrier tn : String) :
    (CarrierService.pyLower carrier ≠ "dhl" → CarrierService.pyLower carrier ≠ "fedex" →
      CarrierService.pyLower carrier ≠ "ups" →
      CarrierService.track_shipment carrier tn = CarrierService.mockTrack tn) ∧
    ((CarrierService.pyLower carrier = "dhl" ∨ CarrierService.pyLower carrier = "fedex" ∨
        CarrierService.pyLower carrier = "ups") →
      CarrierService.track_shipment carrier tn = CarrierService.TrackPayload.emptyDict) := by
  constructor
  · intro h1 h2 h3
    unfold CarrierService.track_shipment
    rw [if_neg h1, if_neg h2, if_neg h3]
  · rintro (h | h | h) <;> unfold CarrierService.track_shipment
    · rw [if_pos h]
    · rw [if_neg (by rw [h]; decide), if_pos h]
    · rw [if_neg (by rw [h]; decide), if_neg (by rw [h]; decide), if_pos h]

/-- C9 amended witness: an unrecognized carrier gets the mock payload and
`dhl` (case-insensitively) gets the empty dict. -/
theorem C9_amended_track_fallback_witness :
    CarrierService.track_shipment "Delhivery" "T2" = CarrierService.mockTrack "T2" ∧
    CarrierService.track_shipment "dhl" "T2" = CarrierService.TrackPayload.emptyDict :=
  ⟨(C9_amended_track_fallback "Delhivery" "T2").1 (by decide) (by decide) (by decide),
   (C9_amended_track_fallback "dhl" "T2").2 (Or.inl (by decide))⟩

/-- C10: whenever the booking request carries a quote id, `create_booking`
always succeeds, inserts the new shipment, and issues the quote-marking
update unconditionally after the insert: the quotes collection becomes
`updateFirst` with the `used`/`selected_carrier`/`used_at` patch.  When no
quote with that id exists the patch touches nothing (but is still
issued); when the quote exists yet no carrier entry matches, the lookup
is `none` and the booking is created with no quote-derived carrier
baseline while the quote is still marked with the unmatched name. -/
theorem C10_quote_marking_unconditional (req : ShipmentCreate) (uid newId : String)
    (now : Nat) (db : DB) (qid : String) (hq : req.quote_id = some qid) :
    (Routes.createBooking req uid newId now db).1 =
      Except.ok (BookingService.create_booking req uid newId now
        (Routes.quoteLookup db req)) ∧
    (Routes.createBooking req uid newId now db).2.shipments =
      db.shipments ++ [BookingService.create_booking req uid newId now
        (Routes.quoteLookup db req)] ∧
    (Routes.createBooking req uid newId now db).2.quotes =
      updateFirst (fun x => x.id = qid) (Routes.markUsed req.carrier_name now)
        db.quotes ∧
    (findQuote db qid = none →
      (Routes.createBooking req uid newId now db).2.quotes = db.quotes) ∧
    (∀ q, findQuote db qid = some q →
      Routes.findCarrierQuote q.carrier_quotes req.carrier_name = none →
      Routes.quoteLookup db req = none ∧
      (BookingService.create_booking req uid newId now
        (Routes.quoteLookup db req)).carrier_info = ⟨none, none, none⟩) := by
  refine ⟨?_, ?_, ?_, ?_, ?_⟩
  · simp only [Routes.createBooking, hq]
    rfl
  · simp only [Routes.createBooking, hq]
  · simp only [Routes.createBooking, hq]
    rfl
  · intro hnone
    have hnoneL : db.quotes.find? (fun x => decide (x.id = qid)) = none := hnone
    have : (Routes.createBooking req uid newId now db).2.quotes =
        updateFirst (fun x : Quote => decide (x.id = qid))
          (Routes.markUsed req.carrier_name now) db.quotes := by
      simp only [Routes.createBooking, hq]
      rfl
    rw [this]
    exact updateFirst_eq_of_find?_none _ _ _ hnoneL
  · intro q hfound hscan
    have hlz : Routes.quoteLookup db req = none := by
      simp only [Routes.quoteLookup, hq, hfound]
      exact hscan
    refine ⟨hlz, ?_⟩
    rw [hlz]
    rfl

/-- C10 witness: booking against `Q2` with carrier `DHL` (no matching
entry) still marks `Q2` used with `selected_carrier = DHL`. -/
theorem C10_quote_marking_unconditional_witness :
    (Routes.createBooking reqNoMatch "U9" "SX" 30 dbQ2).2.quotes =
      updateFirst (fun x => x.id = "Q2") (Routes.markUsed "DHL" 30) dbQ2.quotes :=
  (C10_quote_marking_unconditional reqNoMatch "U9" "SX" 30 dbQ2 "Q2" rfl).2.2.1
